import Mathlib

/-!
Verification development for the Multi-Format Autonomous AI System
(classifier, JSON agent, PDF agents, action routers, audit trace store).
Python sources are shallowly embedded as executable Lean definitions:
Python str values become String, dicts become association lists, JSON
values become an inductive type, floats become exact rationals, and
side effects (HTTP dispatch, SQLite inserts, sleeps) become explicit
outputs or state passing.
-/

/-! ## Python string primitives -/

/-- Model of Python str.lower for the ASCII texts this system handles. -/
def pyLower (s : String) : String := ⟨s.data.map Char.toLower⟩

/-- Python s.split(sep) for a single-character separator: always returns at
least one (possibly empty) segment. -/
def splitOnChar (sep : Char) (cs : List Char) : List (List Char) :=
  cs.foldr
    (fun c acc =>
      if c = sep then [] :: acc
      else
        match acc with
        | h :: t => (c :: h) :: t
        | [] => [[c]])
    [[]]

/-- Python membership test pat in text for strings: contiguous substring. -/
def hasSub (text pat : List Char) : Bool :=
  match text with
  | [] => pat.isEmpty
  | _ :: t => pat.isPrefixOf text || hasSub t pat

/-- Characters matched by the regex class backslash-s and stripped by
Python str.strip() (ASCII whitespace). -/
def isPyWs (c : Char) : Bool :=
  c = ' ' || c = '\t' || c = '\n' || c = '\r' || c = '\x0b' || c = '\x0c'

/-- Model of Python str.strip() with no arguments. -/
def pyStrip (s : String) : String :=
  ⟨((s.data.dropWhile isPyWs).reverse.dropWhile isPyWs).reverse⟩

/-! ## classifier.py -/

/-- Extension of a filename exactly as classifier.py computes it:
filename.lower().split(".")[-1]. -/
def extOf (filename : String) : List Char :=
  (splitOnChar '.' (pyLower filename).data).getLastD []

/-- classifier.classify_format: maps a filename to a format label via the
lower-cased last dot-segment. -/
def classify_format (filename : String) : String :=
  if extOf filename = "pdf".toList then "PDF"
  else if extOf filename = "json".toList then "JSON"
  else if extOf filename = "txt".toList ∨ extOf filename = "eml".toList then "Email"
  else "Unknown"

/-- classifier.classify_intent: first-match-wins keyword rules over the
lower-cased text. The FraudRisk intent is realized by the source as the
string value Fraud Risk. -/
def classify_intent (text : String) : String :=
  if hasSub (pyLower text).data "invoice".toList then "Invoice"
  else if hasSub (pyLower text).data "rfq".toList
      || hasSub (pyLower text).data "quote".toList then "RFQ"
  else if hasSub (pyLower text).data "complaint".toList
      || hasSub (pyLower text).data "issue".toList then "Complaint"
  else if hasSub (pyLower text).data "gdpr".toList
      || hasSub (pyLower text).data "fda".toList
      || hasSub (pyLower text).data "regulation".toList then "Regulation"
  else if hasSub (pyLower text).data "fraud".toList
      || hasSub (pyLower text).data "suspicious".toList then "Fraud Risk"
  else "Unknown"

/-- C8: classify_format is a total function of the filename: it always
returns one of the four format labels (so it never raises), it depends only
on the lower-cased filename (case-insensitive on the extension, the last
dot segment), classify_format "X.PDF" equals classify_format "x.pdf", and
any filename whose extension is outside the known set maps to Unknown. -/
theorem classify_format_spec :
    (∀ s, classify_format s = "PDF" ∨ classify_format s = "JSON" ∨
      classify_format s = "Email" ∨ classify_format s = "Unknown")
    ∧ (∀ s t, pyLower s = pyLower t → classify_format s = classify_format t)
    ∧ classify_format "X.PDF" = classify_format "x.pdf"
    ∧ (∀ s, extOf s ∉ ["pdf".toList, "json".toList, "txt".toList, "eml".toList] →
        classify_format s = "Unknown") := by
  refine ⟨?_, ?_, ?_, ?_⟩
  · intro s
    unfold classify_format
    split
    · exact Or.inl rfl
    · split
      · exact Or.inr (Or.inl rfl)
      · split
        · exact Or.inr (Or.inr (Or.inl rfl))
        · exact Or.inr (Or.inr (Or.inr rfl))
  · intro s t h
    unfold classify_format extOf
    rw [h]
  · decide
  · intro s h
    simp only [List.mem_cons, List.not_mem_nil, or_false, not_or] at h
    obtain ⟨h1, h2, h3, h4⟩ := h
    unfold classify_format
    rw [if_neg h1, if_neg h2, if_neg (fun hc => hc.elim h3 h4)]

/-- Witness for C8: the case-insensitivity and unknown-extension clauses of
classify_format_spec applied at concrete filenames. -/
theorem classify_format_spec_witness :
    classify_format "X.PDF" = classify_format "x.pdf" ∧
      classify_format "report.docx" = "Unknown" :=
  ⟨classify_format_spec.2.1 "X.PDF" "x.pdf" (by decide),
   classify_format_spec.2.2.2 "report.docx" (by decide)⟩

/-- C9: classify_intent always returns one of the six fixed intent labels
(the FraudRisk intent being the source string Fraud Risk), any text
containing the keyword invoice classifies as Invoice regardless of later
keywords (first match in the fixed priority order wins), and in particular
a text containing both invoice and complaint classifies as Invoice. -/
theorem classify_intent_spec :
    (∀ s, classify_intent s = "Invoice" ∨ classify_intent s = "RFQ" ∨
      classify_intent s = "Complaint" ∨ classify_intent s = "Regulation" ∨
      classify_intent s = "Fraud Risk" ∨ classify_intent s = "Unknown")
    ∧ (∀ s, hasSub (pyLower s).data "invoice".toList = true →
        classify_intent s = "Invoice")
    ∧ classify_intent "invoice complaint" = "Invoice" := by
  refine ⟨?_, ?_, ?_⟩
  · intro s
    unfold classify_intent
    split
    · exact Or.inl rfl
    · split
      · exact Or.inr (Or.inl rfl)
      · split
        · exact Or.inr (Or.inr (Or.inl rfl))
        · split
          · exact Or.inr (Or.inr (Or.inr (Or.inl rfl)))
          · split
            · exact Or.inr (Or.inr (Or.inr (Or.inr (Or.inl rfl))))
            · exact Or.inr (Or.inr (Or.inr (Or.inr (Or.inr rfl))))
  · intro s h
    unfold classify_intent
    rw [if_pos h]
  · decide

/-- Witness for C9: the invoice-priority clause of classify_intent_spec
applied to a concrete text containing both invoice and complaint. -/
theorem classify_intent_spec_witness :
    classify_intent "a complaint about an invoice" = "Invoice" :=
  classify_intent_spec.2.1 "a complaint about an invoice" (by decide)

/-! ## memory.py: the audit trace store

The SQLite table is modelled as a list of records in insertion order plus
the next AUTOINCREMENT rowid. insert_agent_trace appends a row with the
assigned id; get_all_records and the memory endpoint read rows ORDER BY id
DESC (reverse insertion order, since ids are assigned monotonically), the
endpoint additionally applying LIMIT. -/

/-- Field values of one insert_agent_trace call (timestamp omitted: it is
supplied by the wall clock and no claim constrains it). -/
structure TraceFields where
  filename : String
  file_type : String
  intent : String
  agent_result : String
  action_taken : String
deriving DecidableEq

/-- One persisted row of the memory table. -/
structure AuditRecord where
  id : Nat
  fields : TraceFields
deriving DecidableEq

/-- State of the memory.db table: rows in insertion order and the next
AUTOINCREMENT id. -/
structure MemoryDB where
  records : List AuditRecord
  nextId : Nat
deriving DecidableEq

/-- State created by memory.init_db: empty table, first rowid is 1. -/
def memInit : MemoryDB := ⟨[], 1⟩

/-- memory.insert_agent_trace: INSERT a row; SQLite assigns the next
monotonically increasing rowid. -/
def insert_agent_trace (db : MemoryDB) (f : TraceFields) : MemoryDB :=
  ⟨db.records ++ [⟨db.nextId, f⟩], db.nextId + 1⟩

/-- memory.get_all_records: SELECT * FROM memory ORDER BY id DESC. Under
the store invariant (ids strictly increase with insertion order, proved in
audit_store_spec) this is reverse insertion order. -/
def get_all_records (db : MemoryDB) : List AuditRecord :=
  db.records.reverse

/-- main.read_memory: SELECT * FROM memory ORDER BY id DESC LIMIT limit. -/
def read_memory (db : MemoryDB) (limit : Nat) : List AuditRecord :=
  db.records.reverse.take limit

/-- Fold of insert_agent_trace over a batch of appends. -/
def insertAll (db : MemoryDB) (fs : List TraceFields) : MemoryDB :=
  fs.foldl insert_agent_trace db

/-- Records a batch of appends creates when the store's next id is n. -/
def assignFrom (n : Nat) : List TraceFields → List AuditRecord
  | [] => []
  | f :: fs => ⟨n, f⟩ :: assignFrom (n + 1) fs

theorem insertAll_records (fs : List TraceFields) :
    ∀ db : MemoryDB, (insertAll db fs).records = db.records ++ assignFrom db.nextId fs ∧
      (insertAll db fs).nextId = db.nextId + fs.length := by
  induction fs with
  | nil => intro db; simp [insertAll, assignFrom]
  | cons f fs ih =>
    intro db
    have h := ih (insert_agent_trace db f)
    simp only [insertAll, List.foldl_cons] at h ⊢
    rw [h.1, h.2]
    simp [insert_agent_trace, assignFrom]
    omega

theorem assignFrom_length (fs : List TraceFields) :
    ∀ n, (assignFrom n fs).length = fs.length := by
  induction fs with
  | nil => intro n; simp [assignFrom]
  | cons f fs ih => intro n; simp [assignFrom, ih]

theorem assignFrom_ids (fs : List TraceFields) :
    ∀ n, (assignFrom n fs).map AuditRecord.id = List.range' n fs.length := by
  induction fs with
  | nil => intro n; simp [assignFrom]
  | cons f fs ih => intro n; simp [assignFrom, List.range', ih]

theorem range'_pairwise_lt (len : Nat) :
    ∀ start : Nat, (List.range' start len).Pairwise (· < ·) := by
  induction len with
  | zero => intro s; simp [List.range']
  | succ n ih =>
    intro s
    simp only [List.range']
    refine List.Pairwise.cons ?_ (ih (s + 1))
    intro a ha
    have := List.mem_range'_1.mp ha
    omega

/-- C4: starting from any store state reached by a run of appends, after
appending N further records the endpoint query with limit N returns exactly
those N records in reverse-insertion order; the ids over the whole table
are strictly increasing (hence unique); and the append-only discipline
holds: previously inserted records are preserved verbatim and nothing is
deleted, each append only adding one row at the end. -/
theorem audit_store_spec (pre post : List TraceFields) :
    read_memory (insertAll (insertAll memInit pre) post) post.length
        = (assignFrom (insertAll memInit pre).nextId post).reverse
    ∧ ((insertAll (insertAll memInit pre) post).records.map AuditRecord.id).Pairwise (· < ·)
    ∧ (insertAll (insertAll memInit pre) post).records
        = (insertAll memInit pre).records ++ assignFrom (insertAll memInit pre).nextId post
    ∧ (∀ db f, (insert_agent_trace db f).records = db.records ++ [⟨db.nextId, f⟩]) := by
  obtain ⟨hrecPre, hnextPre⟩ := insertAll_records pre memInit
  obtain ⟨hrec, hnext⟩ := insertAll_records post (insertAll memInit pre)
  refine ⟨?_, ?_, hrec, fun db f => rfl⟩
  · unfold read_memory
    rw [hrec, List.reverse_append]
    have hlen : (assignFrom (insertAll memInit pre).nextId post).reverse.length
        = post.length := by
      rw [List.length_reverse, assignFrom_length]
    rw [← hlen, List.take_left]
  · have h1 : (insertAll memInit pre).records.map AuditRecord.id
        = List.range' 1 pre.length := by
      rw [hrecPre]
      show ([] ++ assignFrom (1 : Nat) pre).map AuditRecord.id = _
      rw [List.nil_append, assignFrom_ids]
    have h2 : (insertAll memInit pre).nextId = 1 + pre.length := hnextPre
    rw [hrec, List.map_append, h1, assignFrom_ids, h2]
    have h3 : List.range' 1 pre.length ++ List.range' (1 + pre.length) post.length
        = List.range' 1 (pre.length + post.length) := by
      have := List.range'_append 1 pre.length post.length 1
      simpa [Nat.add_comm] using this
    rw [h3]
    exact range'_pairwise_lt _ 1

/-! ## json_agent.py: JSON values and validation

JSON values produced by json.loads are modelled by an inductive type.
Python booleans are a subclass of int, so the isinstance check for int
accepts booleans. Operations that raise in Python (membership tests on
non-containers, bad subscripts) return Except errors. -/

inductive JsonVal where
  | null : JsonVal
  | bool : Bool → JsonVal
  | int : Int → JsonVal
  | float : ℚ → JsonVal
  | str : String → JsonVal
  | arr : List JsonVal → JsonVal
  | obj : List (String × JsonVal) → JsonVal

/-- Python type(v).__name__ for the modelled JSON values. -/
def valTypeName : JsonVal → String
  | .null => "NoneType"
  | .bool _ => "bool"
  | .int _ => "int"
  | .float _ => "float"
  | .str _ => "str"
  | .arr _ => "list"
  | .obj _ => "dict"

/-- Python str(v) as interpolated into the anomaly f-strings (lists and
dicts are approximated; no claim inspects those renderings). -/
def pyStr : JsonVal → String
  | .null => "None"
  | .bool true => "True"
  | .bool false => "False"
  | .int n => toString n
  | .float q => toString q
  | .str s => s
  | .arr _ => "<list>"
  | .obj _ => "<dict>"

/-- The two expected types appearing in REQUIRED_FIELDS. -/
inductive PyType where
  | int : PyType
  | str : PyType
deriving DecidableEq

/-- Python __name__ of the expected type. -/
def tyName : PyType → String
  | .int => "int"
  | .str => "str"

/-- Python isinstance(v, t) for the two expected types; bool is a subclass
of int, so isinstance(True, int) is True. -/
def isinst : PyType → JsonVal → Bool
  | .int, .int _ => true
  | .int, .bool _ => true
  | .str, .str _ => true
  | _, _ => false

/-- Python v == s for a string literal s: only equal strings compare
equal; values of any other type compare unequal. -/
def isStrEq (v : JsonVal) (s : String) : Bool :=
  match v with
  | .str t => t == s
  | _ => false

/-- Python membership test key in data: key lookup for dicts, element
equality for lists, substring for strings, TypeError otherwise. -/
def pyContains (data : JsonVal) (key : String) : Except String Bool :=
  match data with
  | .obj kvs => .ok (List.lookup key kvs).isSome
  | .arr xs => .ok (xs.any fun v => isStrEq v key)
  | .str s => .ok (hasSub s.data key.data)
  | v => .error ("TypeError: argument of type \x27" ++ valTypeName v ++ "\x27 is not iterable")

/-- Python data[key] for a string key. -/
def pySubscript (data : JsonVal) (key : String) : Except String JsonVal :=
  match data with
  | .obj kvs =>
      match List.lookup key kvs with
      | some v => .ok v
      | none => .error ("KeyError: \x27" ++ key ++ "\x27")
  | .arr _ => .error "TypeError: list indices must be integers or slices, not str"
  | .str _ => .error "TypeError: string indices must be integers"
  | v => .error ("TypeError: \x27" ++ valTypeName v ++ "\x27 object is not subscriptable")

/-- json_agent.REQUIRED_FIELDS. -/
def REQUIRED_FIELDS : List (String × PyType) :=
  [("id", .int), ("timestamp", .str), ("status", .str)]

/-- Anomaly string for a missing required field. -/
def missingMsg (f : String) : String := "Missing field: \x27" ++ f ++ "\x27"

/-- Anomaly string for a type mismatch on a present field. -/
def typeMsg (f : String) (ty : PyType) (v : JsonVal) : String :=
  "Type mismatch for \x27" ++ f ++ "\x27: expected " ++ tyName ty ++ ", got " ++ valTypeName v

/-- Python membership of the status value in the allowed_status set. -/
def allowedStatus (v : JsonVal) : Bool :=
  isStrEq v "OPEN" || isStrEq v "CLOSED" || isStrEq v "IN_PROGRESS"

/-- Anomaly string for a disallowed status value. The allowed values are
joined in their literal order (CPython set iteration order is
implementation-defined; no claim depends on it). -/
def statusMsg (v : JsonVal) : String :=
  "Invalid status \x27" ++ pyStr v ++ "\x27 (allowed: OPEN, CLOSED, IN_PROGRESS)"

/-- One iteration of the presence-and-type loop of json_agent.validate. -/
def fieldAnoms (data : JsonVal) (p : String × PyType) : Except String (List String) := do
  let present ← pyContains data p.1
  if present then do
    let v ← pySubscript data p.1
    pure (if isinst p.2 v then [] else [typeMsg p.1 p.2 v])
  else
    pure [missingMsg p.1]

/-- The presence-and-type loop of json_agent.validate over a field list. -/
def loopFields (data : JsonVal) : List (String × PyType) → Except String (List String)
  | [] => .ok []
  | p :: ps => do
    let a ← fieldAnoms data p
    let rest ← loopFields data ps
    pure (a ++ rest)

/-- The custom allowed-status rule of json_agent.validate. -/
def statusAnoms (data : JsonVal) : Except String (List String) := do
  let present ← pyContains data "status"
  if present then do
    let v ← pySubscript data "status"
    pure (if allowedStatus v then [] else [statusMsg v])
  else
    pure []

/-- json_agent.validate: anomaly strings for a parsed payload (empty means
valid). On non-container payloads the Python membership test raises
TypeError, which surfaces as an Except error. -/
def validate (data : JsonVal) : Except String (List String) := do
  let fa ← loopFields data REQUIRED_FIELDS
  let sa ← statusAnoms data
  pure (fa ++ sa)

/-- Anomalies validate produces for one required field of a dict payload. -/
def objFieldAnoms (kvs : List (String × JsonVal)) (f : String) (ty : PyType) : List String :=
  match List.lookup f kvs with
  | none => [missingMsg f]
  | some v => if isinst ty v then [] else [typeMsg f ty v]

/-- Anomalies the allowed-status rule produces for a dict payload. -/
def objStatusAnoms (kvs : List (String × JsonVal)) : List String :=
  match List.lookup "status" kvs with
  | none => []
  | some v => if allowedStatus v then [] else [statusMsg v]

/-- Anomalies validate produces for a dict payload, in loop order. -/
def objAnoms (kvs : List (String × JsonVal)) : List String :=
  objFieldAnoms kvs "id" .int ++ objFieldAnoms kvs "timestamp" .str
    ++ objFieldAnoms kvs "status" .str ++ objStatusAnoms kvs

/-- Number of violations of the spec's validation rules in a dict payload:
one per missing required field, one per present field of the wrong type,
one for a present disallowed status value. Stated from the claim's words,
to be compared with the anomaly list validate computes. -/
def countViolations (kvs : List (String × JsonVal)) : Nat :=
  (match List.lookup "id" kvs with
    | none => 1
    | some v => if isinst .int v then 0 else 1)
  + (match List.lookup "timestamp" kvs with
    | none => 1
    | some v => if isinst .str v then 0 else 1)
  + (match List.lookup "status" kvs with
    | none => 1
    | some v => if isinst .str v then 0 else 1)
  + (match List.lookup "status" kvs with
    | none => 0
    | some v => if allowedStatus v then 0 else 1)

theorem validate_obj (kvs : List (String × JsonVal)) :
    validate (.obj kvs) = .ok (objAnoms kvs) := by
  cases h1 : List.lookup "id" kvs <;> cases h2 : List.lookup "timestamp" kvs <;>
    cases h3 : List.lookup "status" kvs <;>
      simp [validate, loopFields, REQUIRED_FIELDS, fieldAnoms, statusAnoms, objAnoms,
        objFieldAnoms, objStatusAnoms, pyContains, pySubscript, h1, h2, h3,
        bind, Except.bind, pure, Except.pure]

theorem objAnoms_length (kvs : List (String × JsonVal)) :
    (objAnoms kvs).length = countViolations kvs := by
  unfold objAnoms countViolations objFieldAnoms objStatusAnoms
  cases List.lookup "id" kvs <;> cases List.lookup "timestamp" kvs <;>
    cases h3 : List.lookup "status" kvs
  all_goals simp only [List.length_append]
  all_goals (repeat' split) <;> simp

/-! ## json_agent.py: retrying dispatch and the agent entry point

The network is modelled as a function from the attempt number to the
outcome of one POST (ok means a 2xx response; error carries the message of
the requests.RequestException, which also covers the HTTPError raised by
raise_for_status on a non-2xx response). The helper records the attempt
numbers it makes and the sleep durations (seconds) it would pass to
time.sleep, in order. -/

/-- json_agent.MAX_RETRIES. -/
def MAX_RETRIES : Nat := 3

/-- Loop body of json_agent.post_with_retries over the remaining attempt
numbers of range(1, MAX_RETRIES + 1), carrying the current backoff.
Returns ((success, final_error_msg), sleeps, attempts made); none models
the implicit None of a Python loop that ends without returning
(unreachable for the real attempt range). -/
def postGo (net : Nat → Except String Unit) :
    List Nat → Nat → Option ((Bool × String) × List Nat × List Nat)
  | [], _ => none
  | a :: rest, backoff =>
    match net a with
    | .ok _ => some ((true, ""), [], [a])
    | .error e =>
      if a = MAX_RETRIES then some ((false, e), [], [a])
      else
        match postGo net rest (backoff * 2) with
        | some (r, sleeps, att) => some (r, backoff :: sleeps, a :: att)
        | none => none

/-- json_agent.post_with_retries: up to MAX_RETRIES attempts, sleeping the
current backoff (starting at 1 and doubling) after each non-final
failure. -/
def post_with_retries (net : Nat → Except String Unit) :
    Option ((Bool × String) × List Nat × List Nat) :=
  postGo net (List.range' 1 MAX_RETRIES) 1

/-- Attempts a post_with_retries outcome made. -/
def attemptsMade (o : Option ((Bool × String) × List Nat × List Nat)) : List Nat :=
  match o with
  | some (_, _, a) => a
  | none => []

/-- The JSON agent's returned result dict. -/
structure AgentResultJson where
  valid : Bool
  anomalies : List String
  data : Option JsonVal

/-- Payload persisted as the agent_result of a JSON-pipeline audit record:
either the agent result dict or the driver's agent-processing-failed
dict. -/
inductive JsonPayload where
  | res : AgentResultJson → JsonPayload
  | fail : String → JsonPayload

/-- Arguments of one insert_agent_trace call made on the JSON path. -/
structure JsonTraceRec where
  filename : String
  file_type : String
  intent : String
  result : JsonPayload
  action_taken : String

/-- json_agent.process_json. The parse step (json.loads) is external, so
its outcome is an input: error carries the message of the ValueError
raised by parse_json. Returns the agent result, the insert_agent_trace
calls made and the POST attempts made; a TypeError escaping validate on a
non-container payload propagates as an Except error, as in the source
where only the parse ValueError is caught. -/
def process_json (parsed : Except String JsonVal) (net : Nat → Except String Unit)
    (source intent : String) :
    Except String (AgentResultJson × List JsonTraceRec × List Nat) :=
  match parsed with
  | .error msg =>
    let r : AgentResultJson := ⟨false, [msg], none⟩
    .ok (r, [⟨source, "JSON", intent, .res r, "parse_error"⟩], [])
  | .ok data =>
    match validate data with
    | .error e => .error e
    | .ok anomalies =>
      if anomalies.isEmpty then
        let r : AgentResultJson := ⟨true, anomalies, some data⟩
        .ok (r, [⟨source, "JSON", intent, .res r, "logged"⟩], [])
      else
        match post_with_retries net with
        | some ((success, err), _, attempts) =>
          let action := if success then "risk_alert_success"
            else "risk_alert_failed: " ++ err
          let r : AgentResultJson := ⟨false, anomalies, some data⟩
          .ok (r, [⟨source, "JSON", intent, .res r, action⟩], attempts)
        | none => .error "TypeError: cannot unpack non-iterable NoneType object"

theorem listIsEmpty_eq {α : Type} (l : List α) : l.isEmpty = true ↔ l = [] := by
  cases l <;> simp

/-- A network that refuses every POST attempt. -/
def netDown : Nat → Except String Unit := fun _ => .error "connection refused"

/-- The valid example payload of the spec. -/
def exValidKvs : List (String × JsonVal) :=
  [("id", .int 1), ("timestamp", .str "t"), ("status", .str "OPEN")]

/-- The invalid example payload of the spec: id of the wrong type and a
disallowed status. -/
def exBadKvs : List (String × JsonVal) :=
  [("id", .str "x"), ("timestamp", .str "t"), ("status", .str "WEIRD")]

/-- C5 (amended): for every successfully parsed JSON object payload,
validate returns one anomaly string per violation (missing required field,
type mismatch of a present required field, disallowed present status
value), the agent result marks valid true exactly when the anomaly list is
empty, and the two example payloads behave as the spec states. The claim
as stated over every parsed payload fails: on non-container payloads the
membership test raises TypeError (see json_validate_counterexample). -/
theorem json_validate_spec :
    (∀ kvs, validate (.obj kvs) = .ok (objAnoms kvs))
    ∧ (∀ kvs, (objAnoms kvs).length = countViolations kvs)
    ∧ (∀ kvs net src i r traces att,
        process_json (.ok (.obj kvs)) net src i = .ok (r, traces, att) →
          (r.valid = true ↔ r.anomalies = []) ∧ r.anomalies = objAnoms kvs
            ∧ r.data = some (.obj kvs))
    ∧ validate (.obj exValidKvs) = .ok []
    ∧ validate (.obj exBadKvs)
        = .ok ["Type mismatch for \x27id\x27: expected int, got str",
            "Invalid status \x27WEIRD\x27 (allowed: OPEN, CLOSED, IN_PROGRESS)"] := by
  refine ⟨validate_obj, objAnoms_length, ?_, rfl, rfl⟩
  intro kvs net src i r traces att h
  simp only [process_json] at h
  rw [validate_obj kvs] at h
  cases hE : (objAnoms kvs).isEmpty with
  | true =>
    simp only [hE, if_true] at h
    simp only [Except.ok.injEq, Prod.mk.injEq] at h
    obtain ⟨hr, -, -⟩ := h
    subst hr
    refine ⟨?_, rfl, rfl⟩
    simp [(listIsEmpty_eq (objAnoms kvs)).mp hE]
  | false =>
    simp only [hE, Bool.false_eq_true, if_false] at h
    cases hp : post_with_retries net with
    | none => rw [hp] at h; simp at h
    | some x =>
      obtain ⟨⟨succ, err⟩, sleeps, atts⟩ := x
      rw [hp] at h
      simp only [Except.ok.injEq, Prod.mk.injEq] at h
      obtain ⟨hr, -, -⟩ := h
      subst hr
      refine ⟨?_, rfl, rfl⟩
      have : objAnoms kvs ≠ [] := by
        intro hc
        rw [hc] at hE
        simp at hE
      simp [this]

/-- Counterexample for C5: the integer payload 5 parses as JSON, but
validate raises TypeError on the membership test id not in 5, and
process_json propagates it instead of returning an anomaly report, so the
claim quantified over every successfully parsed payload is false. -/
theorem json_validate_counterexample :
    validate (.int 5) = .error "TypeError: argument of type \x27int\x27 is not iterable"
    ∧ process_json (.ok (.int 5)) netDown "webhook" "Unknown"
        = .error "TypeError: argument of type \x27int\x27 is not iterable" :=
  ⟨rfl, rfl⟩

/-- Witness for C5: the valid-iff-no-anomalies clause of
json_validate_spec applied to the concrete invalid example payload under a
failing network. -/
theorem json_validate_spec_witness :
    ((AgentResultJson.mk false
        ["Type mismatch for \x27id\x27: expected int, got str",
          "Invalid status \x27WEIRD\x27 (allowed: OPEN, CLOSED, IN_PROGRESS)"]
        (some (.obj exBadKvs))).valid = true
      ↔ (AgentResultJson.mk false
        ["Type mismatch for \x27id\x27: expected int, got str",
          "Invalid status \x27WEIRD\x27 (allowed: OPEN, CLOSED, IN_PROGRESS)"]
        (some (.obj exBadKvs))).anomalies = []) :=
  (json_validate_spec.2.2.1 exBadKvs netDown "webhook" "Unknown" _
    [⟨"webhook", "JSON", "Unknown",
      .res ⟨false,
        ["Type mismatch for \x27id\x27: expected int, got str",
          "Invalid status \x27WEIRD\x27 (allowed: OPEN, CLOSED, IN_PROGRESS)"],
        some (.obj exBadKvs)⟩,
      "risk_alert_failed: connection refused"⟩]
    [1, 2, 3] rfl).1

/-- C10: the payload with a boolean id passes the integer isinstance check
(Python bool is a subclass of int), so validate reports no anomalies and
process_json returns valid true with no POST attempts. -/
theorem json_bool_id_spec :
    isinst .int (.bool true) = true
    ∧ validate (.obj [("id", .bool true), ("timestamp", .str "t"), ("status", .str "OPEN")])
        = .ok []
    ∧ process_json
        (.ok (.obj [("id", .bool true), ("timestamp", .str "t"), ("status", .str "OPEN")]))
        netDown "webhook" "Unknown"
      = .ok (⟨true, [],
            some (.obj [("id", .bool true), ("timestamp", .str "t"), ("status", .str "OPEN")])⟩,
          [⟨"webhook", "JSON", "Unknown",
            .res ⟨true, [],
              some (.obj [("id", .bool true), ("timestamp", .str "t"), ("status", .str "OPEN")])⟩,
            "logged"⟩],
          []) :=
  ⟨rfl, rfl, rfl⟩

/-- A payload with only a mistyped id: validation yields three anomalies,
so the agent dispatches the risk alert. -/
def exInvalidKvs : List (String × JsonVal) := [("id", .str "x")]

/-- C6: the retrying dispatch helper makes at most 3 POST attempts; when
every attempt fails it sleeps 1 second after the first failed attempt and
2 seconds after the second (doubling, no jitter) and returns success false
with the final error message instead of raising; when the first attempt
fails and the second succeeds only the 1-second sleep happens; and on an
invalid payload with an all-failing network process_json surfaces the
exhaustion as a risk_alert_failed action on the single audit record. -/
theorem post_with_retries_spec :
    (∀ net, (attemptsMade (post_with_retries net)).length ≤ MAX_RETRIES)
    ∧ (∀ es : Nat → String,
        post_with_retries (fun a => .error (es a))
          = some ((false, es 3), [1, 2], [1, 2, 3]))
    ∧ (∀ e : String,
        post_with_retries (fun a => if a = 1 then .error e else .ok ())
          = some ((true, ""), [1], [1, 2]))
    ∧ (∀ es : Nat → String, ∀ src i,
        process_json (.ok (.obj exInvalidKvs)) (fun a => .error (es a)) src i
          = .ok (⟨false, objAnoms exInvalidKvs, some (.obj exInvalidKvs)⟩,
              [⟨src, "JSON", i,
                .res ⟨false, objAnoms exInvalidKvs, some (.obj exInvalidKvs)⟩,
                "risk_alert_failed: " ++ es 3⟩],
              [1, 2, 3])) := by
  refine ⟨?_, fun es => rfl, fun e => rfl, fun es src i => rfl⟩
  intro net
  have hr : List.range' 1 MAX_RETRIES = [1, 2, 3] := rfl
  unfold post_with_retries
  rw [hr]
  cases h1 : net 1 <;> cases h2 : net 2 <;> cases h3 : net 3 <;>
    simp [postGo, h1, h2, h3, MAX_RETRIES, attemptsMade]

/-! ## Action routing: action_router.py and the router in main.py

An outbound requests.post is modelled by its outcome: raise carries the
message of an exception escaping the call; resp carries the HTTP status
code and the outcome of response.json() (error meaning the body failed to
parse, which raises when the source accesses it). Each router also
returns the list of endpoints it dispatched to. -/

/-- Outcome of one outbound requests.post call. -/
inductive ReqOutcome where
  | resp : Nat → Except String String → ReqOutcome
  | raise : String → ReqOutcome

/-- Value of the status field of action_router.route_action's log: the
source stores either a string literal or the integer response.status_code
there. -/
inductive PyStatus where
  | pstr : String → PyStatus
  | pcode : Nat → PyStatus
deriving DecidableEq

/-- The action_log dict of action_router.route_action. -/
structure ActionLog where
  action : Option String
  status : PyStatus
  details : String
deriving DecidableEq

/-- The dict returned by the action_router function in main.py. -/
structure MainLog where
  action : Option String
  status : String
  details : String
deriving DecidableEq

/-- Python dict.get(key) with default None on an agent-result dict. -/
def dictGet (ar : List (String × JsonVal)) (k : String) : Option JsonVal :=
  List.lookup k ar

/-- Python o == s for an optional value against a string literal. -/
def optStrEq (o : Option JsonVal) (s : String) : Bool :=
  match o with
  | some v => isStrEq v s
  | none => false

/-- Python truthiness of a dict.get result: None and missing are falsy,
as are zero, empty string, empty list, empty dict. -/
def pyTruthy : Option JsonVal → Bool
  | none => false
  | some .null => false
  | some (.bool b) => b
  | some (.int n) => decide (n ≠ 0)
  | some (.float q) => decide (q ≠ 0)
  | some (.str s) => decide (s ≠ "")
  | some (.arr xs) => !xs.isEmpty
  | some (.obj kvs) => !kvs.isEmpty

/-- Initial action_log of route_action (the default row). -/
def defaultLog : ActionLog := ⟨none, PyStatus.pstr "skipped", "No action required"⟩

/-- One dispatching branch of route_action: posts to the endpoint and
builds the log; any exception (transport failure or a body that fails
response.json()) is caught by the surrounding except and yields the
action error / status failed log. -/
def dispatchPair (net : String → ReqOutcome) (endpoint act : String) :
    ActionLog × List String :=
  match net endpoint with
  | .raise m => (⟨some "error", .pstr "failed", m⟩, [endpoint])
  | .resp code body =>
    match body with
    | .ok j => (⟨some act, .pcode code, j⟩, [endpoint])
    | .error m => (⟨some "error", .pstr "failed", m⟩, [endpoint])

/-- action_router.route_action: decision rows evaluated in source order;
a non-matching input keeps the default skipped log. -/
def route_action (intent : String) (ar : List (String × JsonVal))
    (net : String → ReqOutcome) : ActionLog × List String :=
  if intent = "Complaint" then
    if optStrEq (dictGet ar "tone") "angry" && optStrEq (dictGet ar "urgency") "high" then
      dispatchPair net "crm/escalate" "escalate_to_crm"
    else (defaultLog, [])
  else if (intent == "Invoice") && pyTruthy (dictGet ar "risk_flag") then
    dispatchPair net "risk_alert" "flag_high_risk_invoice"
  else if (intent == "Regulation") && pyTruthy (dictGet ar "flagged_terms") then
    dispatchPair net "compliance_alert" "compliance_alert"
  else (defaultLog, [])

/-- The insert_agent_trace call route_action makes after deciding:
action_taken is the log's action, or the string none when it is None. -/
def route_action_trace (intent : String) (ar : List (String × JsonVal))
    (net : String → ReqOutcome) : TraceFields :=
  let log := (route_action intent ar net).1
  ⟨"[action_router]", "system", intent, log.details,
    match log.action with
    | none => "none"
    | some a => if a = "" then "none" else a⟩

/-- Python (d.get(k, "") as str).lower(): missing keys default to the
empty string; a non-string value makes .lower() raise AttributeError. -/
def getLowerStr (o : Option JsonVal) : Except String String :=
  match o with
  | none => .ok ""
  | some (.str s) => .ok (pyLower s)
  | some v => .error ("AttributeError: \x27" ++ valTypeName v
      ++ "\x27 object has no attribute \x27lower\x27")

/-- The action_router function of main.py: format-aware decision table
with string statuses; every exception inside the try block (dispatch
failure or AttributeError from .lower()) becomes status error. -/
def action_router (intent fileFormat : String) (ar : List (String × JsonVal))
    (net : String → ReqOutcome) : MainLog × List String :=
  if fileFormat = "Email" ∧ intent = "Complaint" then
    match getLowerStr (dictGet ar "tone") with
    | .error m => (⟨none, "error", m⟩, [])
    | .ok tone =>
      match getLowerStr (dictGet ar "urgency") with
      | .error m => (⟨none, "error", m⟩, [])
      | .ok urg =>
        if tone = "angry" ∧ urg = "high" then
          match net "crm/escalate" with
          | .raise m => (⟨none, "error", m⟩, ["crm/escalate"])
          | .resp _ _ =>
            (⟨some "POST /crm/escalate", "success", "CRM escalation triggered"⟩,
              ["crm/escalate"])
        else (⟨none, "skipped", "No escalation needed"⟩, [])
  else if fileFormat = "PDF" ∧ intent = "Invoice" then
    if pyTruthy (dictGet ar "risk_flag") then
      match net "risk_alert" with
      | .raise m => (⟨none, "error", m⟩, ["risk_alert"])
      | .resp _ _ =>
        (⟨some "POST /risk_alert", "success", "Risk alert triggered"⟩, ["risk_alert"])
    else (⟨none, "skipped", "No action required"⟩, [])
  else (⟨none, "skipped", "No matching rule"⟩, [])

/-- A network whose POSTs succeed with HTTP 200 and a parsable body. -/
def netOk200 : String → ReqOutcome := fun _ => .resp 200 (.ok "ok")

/-- Counterexample for C3: route_action on a matching Complaint with a
successful dispatch stores the integer HTTP status code 200 in the status
field, which is none of the four status strings the claim allows. -/
theorem route_action_counterexample :
    (route_action "Complaint"
        [("tone", .str "angry"), ("urgency", .str "high")] netOk200).1.status
      = PyStatus.pcode 200
    ∧ PyStatus.pcode 200 ∉
        [PyStatus.pstr "success", PyStatus.pstr "failed",
          PyStatus.pstr "skipped", PyStatus.pstr "error"] := by
  exact ⟨rfl, by decide⟩

/-- C3 (amended): both routers are total functions that never propagate a
dispatch exception. The pipeline's router in main.py always reports one of
the statuses success, skipped, error; on Complaint with string tone and
urgency it dispatches only when they lower-case to angry and high and
otherwise yields skipped with no dispatch; a dispatch exception becomes
status error carrying the message; any input matching no row yields
skipped. The standalone route_action leaves the default skipped log (and
dispatches nothing) for a Complaint whose tone or urgency does not equal
the required strings and for any intent outside its three rows, and
converts a dispatch exception into action error, status failed, with the
message; but on successful dispatch its status is the integer HTTP code
rather than one of the four strings (route_action_counterexample). -/
theorem action_router_spec :
    (∀ i f ar net, (action_router i f ar net).1.status = "success"
      ∨ (action_router i f ar net).1.status = "skipped"
      ∨ (action_router i f ar net).1.status = "error")
    ∧ (∀ (tone urg : String) net, ¬(pyLower tone = "angry" ∧ pyLower urg = "high") →
        action_router "Complaint" "Email"
            [("tone", .str tone), ("urgency", .str urg)] net
          = (⟨none, "skipped", "No escalation needed"⟩, []))
    ∧ (∀ m : String,
        action_router "Complaint" "Email"
            [("tone", .str "angry"), ("urgency", .str "high")] (fun _ => .raise m)
          = (⟨none, "error", m⟩, ["crm/escalate"]))
    ∧ (∀ i f ar net, ¬(f = "Email" ∧ i = "Complaint") → ¬(f = "PDF" ∧ i = "Invoice") →
        action_router i f ar net = (⟨none, "skipped", "No matching rule"⟩, []))
    ∧ (∀ ar net,
        (optStrEq (dictGet ar "tone") "angry" && optStrEq (dictGet ar "urgency") "high")
            = false →
          route_action "Complaint" ar net = (defaultLog, []))
    ∧ (∀ i ar net, i ≠ "Complaint" → i ≠ "Invoice" → i ≠ "Regulation" →
        route_action i ar net = (defaultLog, []))
    ∧ (∀ m : String,
        route_action "Complaint" [("tone", .str "angry"), ("urgency", .str "high")]
            (fun _ => .raise m)
          = (⟨some "error", .pstr "failed", m⟩, ["crm/escalate"])) := by
  refine ⟨?_, ?_, fun m => rfl, ?_, ?_, ?_, fun m => rfl⟩
  · intro i f ar net
    unfold action_router
    by_cases h1 : f = "Email" ∧ i = "Complaint"
    · rw [if_pos h1]
      cases hg : getLowerStr (dictGet ar "tone") with
      | error m => simp
      | ok tone =>
        cases hg2 : getLowerStr (dictGet ar "urgency") with
        | error m => simp
        | ok urg =>
          dsimp only
          by_cases h2 : tone = "angry" ∧ urg = "high"
          · rw [if_pos h2]
            cases net "crm/escalate" with
            | raise m => simp
            | resp c b => simp
          · rw [if_neg h2]
            simp
    · rw [if_neg h1]
      by_cases h2 : f = "PDF" ∧ i = "Invoice"
      · rw [if_pos h2]
        by_cases h3 : pyTruthy (dictGet ar "risk_flag") = true
        · rw [if_pos h3]
          cases net "risk_alert" with
          | raise m => simp
          | resp c b => simp
        · rw [if_neg h3]
          simp
      · rw [if_neg h2]
        simp
  · intro tone urg net h
    have hstep : action_router "Complaint" "Email"
        [("tone", .str tone), ("urgency", .str urg)] net
        = if pyLower tone = "angry" ∧ pyLower urg = "high" then
            match net "crm/escalate" with
            | .raise m => (⟨none, "error", m⟩, ["crm/escalate"])
            | .resp _ _ =>
              (⟨some "POST /crm/escalate", "success", "CRM escalation triggered"⟩,
                ["crm/escalate"])
          else (⟨none, "skipped", "No escalation needed"⟩, []) := rfl
    rw [hstep, if_neg h]
  · intro i f ar net h1 h2
    unfold action_router
    rw [if_neg h1, if_neg h2]
  · intro ar net h
    unfold route_action
    rw [if_pos rfl, if_neg (by simp [h])]
  · intro i ar net h1 h2 h3
    unfold route_action
    rw [if_neg h1, if_neg (by simp [h2]), if_neg (by simp [h3])]

/-- Witness for C3: the skip clauses of action_router_spec applied at
concrete inputs: a calm low-urgency complaint email is skipped by the
pipeline router, an RFQ matches no row of either router. -/
theorem action_router_spec_witness :
    action_router "Complaint" "Email"
        [("tone", .str "calm"), ("urgency", .str "low")] netOk200
      = (⟨none, "skipped", "No escalation needed"⟩, [])
    ∧ action_router "RFQ" "Email" [] netOk200
      = (⟨none, "skipped", "No matching rule"⟩, [])
    ∧ route_action "Complaint" [("tone", .str "calm")] netOk200 = (defaultLog, [])
    ∧ route_action "RFQ" [] netOk200 = (defaultLog, []) :=
  ⟨action_router_spec.2.1 "calm" "low" netOk200 (by decide),
   action_router_spec.2.2.2.1 "RFQ" "Email" [] netOk200 (by decide) (by decide),
   action_router_spec.2.2.2.2.1 [("tone", .str "calm")] netOk200 (by decide),
   action_router_spec.2.2.2.2.2.1 "RFQ" [] netOk200 (by decide) (by decide) (by decide)⟩

/-! ## main.py upload flow, JSON branch

The driver classifies intent from the text, runs process_json (with its
default source webhook and intent Unknown), routes the action with
format JSON, and appends its own audit record whose action_taken is the
router's action or log_only. -/

/-- A router network whose every POST raises. -/
def rnetDown : String → ReqOutcome := fun _ => .raise "connection refused"

/-- The agent result dict as handed to the router on the JSON path. -/
def resultToDict (r : AgentResultJson) : List (String × JsonVal) :=
  [("valid", .bool r.valid), ("anomalies", .arr (r.anomalies.map JsonVal.str)),
    ("data", match r.data with | some d => d | none => .null)]

/-- The driver's agent-processing-failed dict (its trace field carries the
formatted traceback; modelled by the escaping error message). -/
def failDict (e : String) : List (String × JsonVal) :=
  [("valid", .bool false), ("error", .str "Agent processing failed"), ("trace", .str e)]

/-- Python router_result.get("action") or "log_only". -/
def actionOr (a : Option String) : String :=
  match a with
  | none => "log_only"
  | some s => if s = "" then "log_only" else s

/-- The JSON branch of main.upload_file: process_json, then the main
action_router, then the driver's own insert_agent_trace. Returns the
agent result payload, the router outcome and every audit record the run
writes in order. -/
def pipelineJson (fname text : String) (parsed : Except String JsonVal)
    (net : Nat → Except String Unit) (rnet : String → ReqOutcome) :
    JsonPayload × MainLog × List JsonTraceRec :=
  let intent := classify_intent text
  match process_json parsed net "webhook" "Unknown" with
  | .ok (r, traces, _) =>
    let router := action_router intent "JSON" (resultToDict r) rnet
    (.res r, router.1,
      traces ++ [⟨fname, "JSON", intent, .res r, actionOr router.1.action⟩])
  | .error e =>
    let router := action_router intent "JSON" (failDict e) rnet
    (.fail "Agent processing failed", router.1,
      [⟨fname, "JSON", intent, .fail "Agent processing failed",
        actionOr router.1.action⟩])

theorem router_skips_json (i : String) (ar : List (String × JsonVal))
    (rnet : String → ReqOutcome) :
    action_router i "JSON" ar rnet = (⟨none, "skipped", "No matching rule"⟩, []) := by
  unfold action_router
  rw [if_neg (fun hc => absurd hc.1 (by decide)),
    if_neg (fun hc => absurd hc.1 (by decide))]

/-- C1 (amended): for every unparsable JSON input, process_json returns
valid false, exactly one anomaly carrying the parse error, no data, makes
no POST attempt, and writes one agent-level audit record with action_taken
parse_error; but a full pipeline run over that input writes two audit
records, the agent's parse_error record followed by the driver's final
record with action_taken log_only (the claim's single audit record fails,
see json_parse_pipeline_counterexample). -/
theorem json_parse_pipeline_spec :
    (∀ msg net src i,
        process_json (.error msg) net src i
          = .ok (⟨false, [msg], none⟩,
              [⟨src, "JSON", i, .res ⟨false, [msg], none⟩, "parse_error"⟩], []))
    ∧ (∀ fname text msg net rnet,
        ((pipelineJson fname text (.error msg) net rnet).2.2).map
            JsonTraceRec.action_taken
          = ["parse_error", "log_only"]
        ∧ (pipelineJson fname text (.error msg) net rnet).1
          = JsonPayload.res ⟨false, [msg], none⟩
        ∧ (pipelineJson fname text (.error msg) net rnet).2.1
          = ⟨none, "skipped", "No matching rule"⟩) := by
  refine ⟨fun msg net src i => rfl, ?_⟩
  intro fname text msg net rnet
  unfold pipelineJson
  simp only [process_json, router_skips_json]
  refine ⟨?_, ?_, ?_⟩ <;> trivial

/-- Counterexample for C1: a concrete malformed-JSON pipeline run writes
two audit records, not exactly one; exactly one of the two has
action_taken parse_error. -/
theorem json_parse_pipeline_counterexample :
    ((pipelineJson "f.json" "not json"
        (.error "Invalid JSON: Expecting value") netDown rnetDown).2.2).length = 2
    ∧ ¬((pipelineJson "f.json" "not json"
        (.error "Invalid JSON: Expecting value") netDown rnetDown).2.2).length = 1
    ∧ (((pipelineJson "f.json" "not json"
        (.error "Invalid JSON: Expecting value") netDown rnetDown).2.2).filter
          (fun t => t.action_taken == "parse_error")).length = 1 := by
  refine ⟨rfl, by decide, rfl⟩

/-! ## PDF agents: pdf_agent.py and process_pdf.py

The pdfplumber library is the external extraction capability: its output
(page text and raw tables, cells being str or None) is an input of the
embedded functions, and a pdfplumber exception is the none case. Prices
are exact rationals (Python floats round to binary, but no claim depends
on rounding). The TOTAL_REGEX search is implemented directly: scan for
the leftmost position matching total, an optional whitespace-plus-amount,
any colons and whitespace, an optional dollar sign, and a number of
digits and commas with an optional dot and up to two decimal digits. -/

/-- Raw tables of a document: tables, then rows, then cells. -/
abbrev PdfTables := List (List (List (Option String)))

/-- Numeric value of a digit string. -/
def natOfDigits (cs : List Char) : Nat :=
  cs.foldl (fun a c => a * 10 + (c.toNat - 48)) 0

/-- Python float(s) for strings made of digits and dots (the only inputs
the agents produce after their re.sub filtering): at most one dot and at
least one digit, else ValueError (none). -/
def parsePyFloat (cs : List Char) : Option ℚ :=
  if cs.isEmpty then none
  else if cs.any (fun c => !(c.isDigit || c = '.')) then none
  else
    match splitOnChar '.' cs with
    | [ip] => some (natOfDigits ip)
    | [ip, fp] =>
      if ip.isEmpty && fp.isEmpty then none
      else some ((natOfDigits ip : ℚ) + (natOfDigits fp : ℚ) / (10 : ℚ) ^ fp.length)
    | _ => none

/-- Case-insensitive literal match: consumes pat (given lower-case) from
the front of cs, returning the rest. -/
def stripCI (pat cs : List Char) : Option (List Char) :=
  match pat, cs with
  | [], _ => some cs
  | _ :: _, [] => none
  | p :: ps, c :: rest => if c.toLower = p then stripCI ps rest else none

/-- Tail of TOTAL_REGEX after the literal part: colons-or-whitespace, an
optional dollar sign, then the captured group: one or more digits or
commas, an optional dot, and up to two decimal digits (all greedy; no
later pattern part can force backtracking). Returns the captured group. -/
def matchNum (cs : List Char) : Option (List Char) :=
  let cs1 := cs.dropWhile (fun c => c = ':' || isPyWs c)
  let cs2 := match cs1 with
    | '$' :: r => r
    | _ => cs1
  let run := cs2.takeWhile (fun c => c.isDigit || c = ',')
  let rest := cs2.dropWhile (fun c => c.isDigit || c = ',')
  if run.isEmpty then none
  else
    match rest with
    | '.' :: r2 => some (run ++ '.' :: (r2.takeWhile Char.isDigit).take 2)
    | _ => some run

/-- TOTAL_REGEX at one position: the literal total, then the optional
greedy whitespace-plus-amount group (falling back, as the regex engine
does, to not taking the group when the rest fails after it), then the
number tail. -/
def matchTotalAt (cs : List Char) : Option (List Char) :=
  match stripCI "total".toList cs with
  | none => none
  | some r1 =>
    match (if (r1.takeWhile isPyWs).isEmpty then none
        else stripCI "amount".toList (r1.dropWhile isPyWs)) with
    | some r2 =>
      match matchNum r2 with
      | some g => some g
      | none => matchNum r1
    | none => matchNum r1

/-- re.search with TOTAL_REGEX: leftmost position that matches wins;
returns the captured amount group. -/
def regexSearchTotal : List Char → Option (List Char)
  | [] => none
  | c :: rest =>
    match matchTotalAt (c :: rest) with
    | some g => some g
    | none => regexSearchTotal rest

/-- float(m.group(1).replace(",", "")) with ValueError giving 0.0. -/
def totalFromGroup (g : List Char) : ℚ :=
  match parsePyFloat (g.filter (fun c => c ≠ ',')) with
  | some q => q
  | none => 0

/-- The regex-derived invoice total of a text: 0.0 when nothing matches or
the matched amount fails float coercion. -/
def regexTotalOf (text : String) : ℚ :=
  match regexSearchTotal text.data with
  | none => 0
  | some g => totalFromGroup g

/-- One parsed line item (spec LineItem): non-negative quantity and
price. -/
structure LineItem where
  description : String
  quantity : Nat
  price : ℚ
deriving DecidableEq

/-- One row of a table: cleaned cells (None becomes the empty string),
rows shorter than 3 columns or failing numeric coercion are dropped. -/
def parseRow (row : List (Option String)) : Option LineItem :=
  let cleaned := row.map (fun c => match c with | some s => pyStrip s | none => "")
  if cleaned.length < 3 then none
  else
    match cleaned with
    | desc :: qtyRaw :: priceRaw :: _ =>
      let qty := qtyRaw.data.filter Char.isDigit
      let price := priceRaw.data.filter (fun c => c.isDigit || c = '.')
      if desc = "" || qty.isEmpty || price.isEmpty then none
      else
        match parsePyFloat price with
        | some p => some ⟨desc, natOfDigits qty, p⟩
        | none => none
    | _ => none

/-- Line-item extraction over all tables of all pages, in order (the body
shared by pdf_agent._parse_line_items and process_pdf._extract_line_items). -/
def parseLineItems (tables : PdfTables) : List LineItem :=
  (tables.map (fun tbl => tbl.filterMap parseRow)).flatten

/-- Sum of quantity times price over the items, folded left like Python
sum. -/
def sumItems (items : List LineItem) : ℚ :=
  items.foldl (fun acc i => acc + (i.quantity : ℚ) * i.price) 0

/-- The compliance keyword set, in literal order. -/
def KEYWORDS : List String := ["GDPR", "FDA", "HIPAA", "FCA"]

/-- Keywords flagged in a text, case-insensitively. -/
def flaggedOf (text : String) : List String :=
  KEYWORDS.filter (fun kw => hasSub (pyLower text).data (pyLower kw).data)

/-- The agent_result dict of the PDF agents; valid is none for the
process_pdf.py variant, which returns no valid key at all. -/
structure AgentResultPdf where
  invoice_total : ℚ
  line_items : List LineItem
  flagged_terms : List String
  risk_flag : Bool
  valid : Option Bool
deriving DecidableEq

/-- process_pdf.process_pdf (the text-plus-filepath variant main.py
imports): regex total from the given text first, then table line items
refine it to the maximum of the two when any item was parsed; a
pdfplumber failure (opened = none) keeps the regex total and no items. -/
def process_pdf_v2 (text : String) (opened : Option PdfTables) : AgentResultPdf :=
  let regexTotal := regexTotalOf text
  let flagged := flaggedOf text
  let p :=
    match opened with
    | none => (([] : List LineItem), regexTotal)
    | some tbls =>
      let its := parseLineItems tbls
      (its, if its.isEmpty then regexTotal else max regexTotal (sumItems its))
  ⟨p.2, p.1, flagged, decide (p.2 > 10000), none⟩

/-- The insert_agent_trace call of process_pdf.process_pdf (agent_result
is serialized by json.dumps, which is external). -/
def process_pdf_v2_trace (text : String) (opened : Option PdfTables)
    (fname : String) : TraceFields :=
  ⟨fname, "PDF", "InvoiceAnalysis", "json.dumps of agent_result",
    if (process_pdf_v2 text opened).risk_flag then "risk_logged" else "log_only"⟩

/-- pdf_agent.process_pdf (the filepath-only variant): one pdfplumber
open yields text and tables (a failure yields empty text and no items);
the table sum is taken when items exist, and the regex fallback applies
only when the current total is 0.0 and text is non-empty (in which case
the current total is 0, so a failed search or coercion leaves 0, which
equals regexTotalOf text). -/
def process_pdf_v1 (openedDoc : Option (String × PdfTables)) : AgentResultPdf :=
  let text := match openedDoc with | none => "" | some (t, _) => t
  let items := match openedDoc with | none => [] | some (_, tbls) => parseLineItems tbls
  let t0 : ℚ := if items.isEmpty then 0 else sumItems items
  let total := if t0 = 0 ∧ text ≠ "" then regexTotalOf text else t0
  let flagged := if text = "" then [] else flaggedOf text
  ⟨total, items, flagged, decide (total > 10000), some (decide (text ≠ ""))⟩

/-- The insert_agent_trace call of pdf_agent.process_pdf. -/
def process_pdf_v1_trace (openedDoc : Option (String × PdfTables))
    (fname : String) : TraceFields :=
  let text := match openedDoc with | none => "" | some (t, _) => t
  ⟨fname, "PDF",
    if hasSub (pyLower text).data "invoice".toList then "InvoiceAnalysis"
    else "RegulationCheck",
    "json.dumps of agent_result",
    if (process_pdf_v1 openedDoc).risk_flag then "risk_logged" else "log_only"⟩

/-- The PDF branch of main.upload_file: runs the process_pdf.py variant
on the already-extracted text, then unconditionally sets valid to True. -/
def pipelinePdfResult (text : String) (opened : Option PdfTables) : AgentResultPdf :=
  let r := process_pdf_v2 text opened
  { r with valid := some true }

theorem v2_total_of_items (text : String) (tbls : PdfTables)
    (h : parseLineItems tbls ≠ []) :
    (process_pdf_v2 text (some tbls)).invoice_total
      = max (regexTotalOf text) (sumItems (parseLineItems tbls)) := by
  have hb : (parseLineItems tbls).isEmpty = false := by
    cases hh : (parseLineItems tbls).isEmpty
    · rfl
    · exact absurd ((listIsEmpty_eq _).mp hh) h
  simp [process_pdf_v2, hb]

theorem v2_total_no_items (text : String) (tbls : PdfTables)
    (h : parseLineItems tbls = []) :
    (process_pdf_v2 text (some tbls)).invoice_total = regexTotalOf text := by
  simp [process_pdf_v2, h]

theorem v1_total_of_items (text : String) (tbls : PdfTables)
    (h : parseLineItems tbls ≠ []) (h2 : sumItems (parseLineItems tbls) ≠ 0) :
    (process_pdf_v1 (some (text, tbls))).invoice_total
      = sumItems (parseLineItems tbls) := by
  have hb : (parseLineItems tbls).isEmpty = false := by
    cases hh : (parseLineItems tbls).isEmpty
    · rfl
    · exact absurd ((listIsEmpty_eq _).mp hh) h
  simp [process_pdf_v1, hb, h2]

theorem v1_total_no_items (text : String) (tbls : PdfTables)
    (h : parseLineItems tbls = []) (ht : text ≠ "") :
    (process_pdf_v1 (some (text, tbls))).invoice_total = regexTotalOf text := by
  simp [process_pdf_v1, h, ht]

/-- The table arrangement of the C2 counterexample: one table with one
line-item row of quantity 1 and price 50. -/
def cexTables : PdfTables := [[[some "w", some "1", some "50"]]]

/-- C2 (amended): in the process_pdf.py variant used by the pipeline,
when at least one line item is parsed the invoice_total is the maximum of
the regex-derived total and the table-derived sum (the claim's rule that
the table sum fully supersedes and the totals are never combined by
maximum fails there, see pdf_total_counterexample); with no line items
the regex total is used. In the pdf_agent.py variant the table sum
supersedes the regex total whenever it is nonzero, and with no line items
and non-empty text the regex total applies. In neither variant are the
two totals summed or averaged. -/
theorem pdf_total_spec :
    (∀ (text : String) (tbls : PdfTables), parseLineItems tbls ≠ [] →
        (process_pdf_v2 text (some tbls)).invoice_total
          = max (regexTotalOf text) (sumItems (parseLineItems tbls)))
    ∧ (∀ (text : String) (tbls : PdfTables), parseLineItems tbls = [] →
        (process_pdf_v2 text (some tbls)).invoice_total = regexTotalOf text)
    ∧ (∀ (text : String) (tbls : PdfTables), parseLineItems tbls ≠ [] →
        sumItems (parseLineItems tbls) ≠ 0 →
          (process_pdf_v1 (some (text, tbls))).invoice_total
            = sumItems (parseLineItems tbls))
    ∧ (∀ (text : String) (tbls : PdfTables), parseLineItems tbls = [] → text ≠ "" →
        (process_pdf_v1 (some (text, tbls))).invoice_total = regexTotalOf text) :=
  ⟨v2_total_of_items, v2_total_no_items, v1_total_of_items, v1_total_no_items⟩

/-- Counterexample for C2: with text Total: $100 and one parsed line item
of value 50, the pipeline's PDF variant reports invoice_total 100, the
maximum of the two totals, not the table-derived sum 50. -/
theorem pdf_total_counterexample :
    (process_pdf_v2 "Total: $100" (some cexTables)).line_items = [⟨"w", 1, 50⟩]
    ∧ sumItems ((process_pdf_v2 "Total: $100" (some cexTables)).line_items) = 50
    ∧ (process_pdf_v2 "Total: $100" (some cexTables)).invoice_total = 100
    ∧ (process_pdf_v2 "Total: $100" (some cexTables)).invoice_total
        ≠ sumItems ((process_pdf_v2 "Total: $100" (some cexTables)).line_items) := by
  have hitems : (process_pdf_v2 "Total: $100" (some cexTables)).line_items
      = [⟨"w", 1, 50⟩] := rfl
  have hsum : sumItems [(⟨"w", 1, 50⟩ : LineItem)] = 50 := by
    norm_num [sumItems, List.foldl_cons, List.foldl_nil]
  have htot : (process_pdf_v2 "Total: $100" (some cexTables)).invoice_total = 100 := by
    have h := v2_total_of_items "Total: $100" cexTables (by decide)
    rw [h, show parseLineItems cexTables = [⟨"w", 1, 50⟩] from rfl, hsum,
      show regexTotalOf "Total: $100" = 100 from rfl]
    norm_num
  refine ⟨hitems, by rw [hitems]; exact hsum, htot, ?_⟩
  rw [htot, hitems, hsum]
  norm_num

/-- Witness for C2: the max rule of pdf_total_spec and the supersede rule
of the pdf_agent.py variant applied at the concrete counterexample
document. -/
theorem pdf_total_spec_witness :
    (process_pdf_v2 "Total: $100" (some cexTables)).invoice_total
      = max (regexTotalOf "Total: $100") (sumItems (parseLineItems cexTables))
    ∧ (process_pdf_v1 (some ("Total: $100", cexTables))).invoice_total
      = sumItems (parseLineItems cexTables) :=
  ⟨pdf_total_spec.1 "Total: $100" cexTables (by decide),
   pdf_total_spec.2.2.1 "Total: $100" cexTables (by decide)
     (by norm_num [show parseLineItems cexTables = [⟨"w", 1, 50⟩] from rfl,
       sumItems, List.foldl_cons, List.foldl_nil])⟩

/-- Extracted text of a pdf_agent.py run: empty when pdfplumber raised. -/
def pdfTextOf (openedDoc : Option (String × PdfTables)) : String :=
  match openedDoc with
  | none => ""
  | some (t, _) => t

/-- C7 (amended): in the standalone pdf_agent.py variant the valid field
is true exactly when the extracted text is non-empty; but the variant the
pipeline runs returns no valid key at all, and the pipeline driver then
sets valid to True unconditionally, so every PDF pipeline run reports
valid true even with empty extracted text (pdf_valid_counterexample). -/
theorem pdf_valid_spec :
    (∀ openedDoc, (process_pdf_v1 openedDoc).valid = some true ↔ pdfTextOf openedDoc ≠ "")
    ∧ (∀ text opened, (process_pdf_v2 text opened).valid = none)
    ∧ (∀ text opened, (pipelinePdfResult text opened).valid = some true) := by
  refine ⟨?_, fun t o => rfl, fun t o => rfl⟩
  intro d
  have h : (process_pdf_v1 d).valid = some (decide (pdfTextOf d ≠ "")) := rfl
  rw [h]
  simp

/-- Counterexample for C7: a pipeline run over a PDF with empty extracted
text still reports valid true, refuting the claimed equivalence of valid
with non-empty text. -/
theorem pdf_valid_counterexample :
    (pipelinePdfResult "" (some [])).valid = some true ∧ ¬(("" : String) ≠ "") :=
  ⟨rfl, fun h => h rfl⟩

/-- Witness for C7: the pdf_agent.py equivalence of pdf_valid_spec applied
at a concrete document with non-empty extracted text. -/
theorem pdf_valid_spec_witness :
    (process_pdf_v1 (some ("x", []))).valid = some true :=
  (pdf_valid_spec.1 (some ("x", []))).mpr (by decide)
